import Mathlib

/-!
Verification development for the cross-document financial consistency checker.

The program under study uploads business documents, extracts financial figures
from their text via regular-expression pattern matching, attributes each figure
to a fiscal year by textual proximity, and cross-compares figures across
documents per (field, year) pair.

Embedding conventions:
* document text is a `List Char` (JavaScript string indices become list
  indices); generated labels and messages are Lean `String`s;
* JavaScript numbers are modelled as exact rationals `ℚ` (the extracted
  captures are decimal digit strings, so no rounding is involved; float
  overflow to `Infinity` is outside this model);
* `Number.toLocaleString` rendering inside report strings is modelled by the
  deterministic decimal rendering `ratStr`;
* the asynchronous external collaborators (`storage.upload` plus
  `extractFromUrl`, and `extractFromBlob`) are modelled by their outcomes,
  passed as `Except String String` arguments;
* JavaScript `Set` insertion-order iteration is `dedupFirst`; plain-object
  key insertion with overwrite is `upsert`.
-/

/-- Structural worker for `dedupFirst`: `seen` holds the elements already
emitted. -/
def dedupFirstAux {α : Type} [DecidableEq α] (seen : List α) : List α → List α
  | [] => []
  | x :: xs => if x ∈ seen then dedupFirstAux seen xs else x :: dedupFirstAux (x :: seen) xs

/-- JS `Set` semantics: deduplicate keeping the first occurrence of each
element, in first-appearance order. -/
def dedupFirst {α : Type} [DecidableEq α] (l : List α) : List α :=
  dedupFirstAux [] l

/-- JS plain-object assignment `m[k] = v`: overwrite the value if the key is
present (keeping its original position), otherwise append the new entry. -/
def upsert {β : Type} (k : String) (v : β) : List (String × β) → List (String × β)
  | [] => [(k, v)]
  | (k', v') :: rest => if k' = k then (k', v) :: rest else (k', v') :: upsert k v rest

/-- Keys of a JS-object association list, in insertion order. -/
def keysOf {β : Type} (m : List (String × β)) : List String := m.map (fun p => p.1)

/-- JS-object property read `m[k]`: `some v` when the key is present. -/
def lookupVal {β : Type} (m : List (String × β)) (k : String) : Option β :=
  (m.find? (fun p => p.1 == k)).map (fun p => p.2)

/-- Whether the pattern occurs in the text at exactly index `i`. -/
def occursAt (text pat : List Char) (i : Nat) : Bool :=
  (text.drop i).take pat.length == pat

/-- JS `text.indexOf(pat, start)`: the smallest index `≥ start` at which
`pat` occurs, if any. -/
def indexOfFromAux (text pat : List Char) : Nat → Nat → Option Nat
  | 0, _ => none
  | fuel + 1, i =>
    if occursAt text pat i then some i
    else if i < text.length then indexOfFromAux text pat fuel (i + 1)
    else none

/-- JS `text.indexOf(pat, start)` (for nonempty `pat`). -/
def indexOfFrom (text pat : List Char) (start : Nat) : Option Nat :=
  indexOfFromAux text pat (text.length + 1 - start) start

/-- Decimal digit run to a natural number. -/
def digitsToNat (l : List Char) : Nat :=
  l.foldl (fun n c => 10 * n + (c.toNat - '0'.toNat)) 0

/-- JS `parseFloat` restricted to the strings that reach it in this program
(decimal digits and at most one dot, commas already removed): `none` models
`NaN`. -/
def parseFloatQ (s : List Char) : Option ℚ :=
  let ip := s.takeWhile Char.isDigit
  let rest := s.drop ip.length
  match rest with
  | '.' :: r2 =>
    let fp := r2.takeWhile Char.isDigit
    if ip.isEmpty && fp.isEmpty then none
    else some ((digitsToNat ip : ℚ) + (digitsToNat fp : ℚ) / (10 : ℚ) ^ fp.length)
  | _ => if ip.isEmpty then none else some (digitsToNat ip : ℚ)

/-- Deterministic decimal rendering of a rational, standing in for the
locale-dependent `Number.toLocaleString` in generated report strings. -/
def ratStr (q : ℚ) : String :=
  if q.den = 1 then toString q.num else toString q.num ++ "/" ++ toString q.den

/-! ### Regular-expression engine

The source's patterns are linear sequences of case-insensitive literals,
the character classes `[:\s]` (with `+`), `[:\s\w]` (with `*`), `\$?` and
`.?`, followed by a single capture group `([\d,]+)` optionally extended by
`(?:\.\d{2})?`.  The matcher below implements JavaScript regex semantics for
exactly this family: leftmost match, greedy quantifiers with backtracking. -/

/-- Character classes appearing in the source's patterns. -/
inductive CC
  | cs      -- `[:\s]`
  | wcs     -- `[:\s\w]`
  | dollar  -- `\$`
  | anyNoNL -- `.` (any character except line terminators)
deriving DecidableEq, Repr

/-- Class membership; `\s` and `\w` are modelled by `Char.isWhitespace` and
ASCII alphanumerics plus underscore, which cover every character these
documents' patterns are exercised on. -/
def CC.test : CC → Char → Bool
  | .cs, c => c == ':' || c.isWhitespace
  | .wcs, c => c == ':' || c.isWhitespace || c.isAlphanum || c == '_'
  | .dollar, c => c == '$'
  | .anyNoNL, c => !(c == '\n' || c == '\r' || c == '\u2028' || c == '\u2029')

/-- One token of a pattern prefix (everything before the capture group). -/
inductive Tok
  | lit (c : Char)   -- case-insensitive literal
  | optCC (cc : CC)  -- `X?`
  | plusCC (cc : CC) -- `X+`
  | starCC (cc : CC) -- `X*`
deriving DecidableEq, Repr

/-- Backtracking helper: try consuming `n, n-1, ..., lo` characters (greedy:
longest first), returning the first success of the continuation. -/
def tryDrops {α : Type} (k : List Char → Option α) (s : List Char) (lo : Nat) : Nat → Option α
  | 0 => if lo = 0 then k s else none
  | n + 1 =>
    if n + 1 < lo then none
    else
      match k (s.drop (n + 1)) with
      | some r => some r
      | none => tryDrops k s lo n

/-- Match a token sequence at the head of `s`, greedily with backtracking,
then run the continuation on the remainder (JS regex semantics). -/
def matchToks {α : Type} : List Tok → List Char → (List Char → Option α) → Option α
  | [], s, k => k s
  | Tok.lit c :: ts, s, k =>
    match s with
    | [] => none
    | x :: s2 => if x.toLower == c.toLower then matchToks ts s2 k else none
  | Tok.optCC cc :: ts, s, k =>
    match s with
    | [] => matchToks ts [] k
    | x :: s2 =>
      if cc.test x then
        match matchToks ts s2 k with
        | some r => some r
        | none => matchToks ts (x :: s2) k
      else matchToks ts (x :: s2) k
  | Tok.plusCC cc :: ts, s, k =>
    tryDrops (fun s2 => matchToks ts s2 k) s 1 (s.takeWhile cc.test).length
  | Tok.starCC cc :: ts, s, k =>
    tryDrops (fun s2 => matchToks ts s2 k) s 0 (s.takeWhile cc.test).length

/-- A financial pattern: prefix tokens, then the capture group `([\d,]+)`,
extended by `(?:\.\d{2})?` inside the group when `dec` is true. -/
structure FinPat where
  toks : List Tok
  dec : Bool
deriving Repr

/-- Match the capture group `([\d,]+)` (plus optional `\.\d{2}` when `dec`)
at the head of `s`; returns the captured characters and the rest. -/
def matchGroup (dec : Bool) (s : List Char) : Option (List Char × List Char) :=
  let run := s.takeWhile (fun c => c.isDigit || c == ',')
  if run.isEmpty then none
  else
    let rest := s.drop run.length
    if dec then
      match rest with
      | '.' :: a :: b :: rest2 =>
        if a.isDigit && b.isDigit then some (run ++ ['.', a, b], rest2)
        else some (run, rest)
      | _ => some (run, rest)
    else some (run, rest)

/-- Match a whole pattern at the head of `s`: returns the capture and the
total number of characters consumed by the match. -/
def matchPatAt (p : FinPat) (s : List Char) : Option (List Char × Nat) :=
  matchToks p.toks s (fun s2 =>
    match matchGroup p.dec s2 with
    | some (cap, rest) => some (cap, s.length - rest.length)
    | none => none)

/-- Leftmost match at index `≥ i`: returns (match index, capture, match length). -/
def findFromAux (p : FinPat) (text : List Char) : Nat → Nat → Option (Nat × List Char × Nat)
  | 0, _ => none
  | fuel + 1, i =>
    match matchPatAt p (text.drop i) with
    | some (cap, len) => some (i, cap, len)
    | none => if i < text.length then findFromAux p text fuel (i + 1) else none

/-- JS `pattern.exec(text)` starting the search at `start`. -/
def findMatchFrom (p : FinPat) (text : List Char) (start : Nat) : Option (Nat × List Char × Nat) :=
  findFromAux p text (text.length + 1 - start) start

/-- All matches of a `/g` pattern (the source's `while ((match = pattern.exec(text)))`
loop): each search resumes at the end of the previous match. -/
def execAllAux (p : FinPat) (text : List Char) : Nat → Nat → List (Nat × List Char × Nat)
  | 0, _ => []
  | fuel + 1, pos =>
    match findMatchFrom p text pos with
    | none => []
    | some (i, cap, len) => (i, cap, len) :: execAllAux p text fuel (i + (if len = 0 then 1 else len))

/-- All non-overlapping matches, left to right. -/
def execAll (p : FinPat) (text : List Char) : List (Nat × List Char × Nat) :=
  execAllAux p text (text.length + 1) 0

/-- JS `text.match(pattern)` for a non-global pattern: the first match only. -/
def execFirst (p : FinPat) (text : List Char) : Option (Nat × List Char × Nat) :=
  findMatchFrom p text 0

/-! ### Pattern tables (transcribed from the source) -/

/-- Case-insensitive literal token sequence. -/
def litToks (s : String) : List Tok := s.data.map Tok.lit

/-- `/<kw>[:\s]+\$?([\d,]+(?:\.\d{2})?)/gi` — the shape of almost every
pattern in the 0.85-confidence extractor. -/
def stdPat (kw : String) : FinPat :=
  { toks := litToks kw ++ [Tok.plusCC CC.cs, Tok.optCC CC.dollar], dec := true }

/-- `/<kw>.? equity[:\s]+\$?([\d,]+(?:\.\d{2})?)/gi` — the shareholders /
stockholders equity patterns. -/
def holderPat (kw : String) : FinPat :=
  { toks := litToks kw ++ [Tok.optCC CC.anyNoNL] ++ litToks " equity" ++
      [Tok.plusCC CC.cs, Tok.optCC CC.dollar],
    dec := true }

/-- The 0.85-confidence extractor's pattern table:
(category, field, patterns), in source order. -/
def patternsV1 : List (String × String × List FinPat) :=
  [("Income Statement", "Revenue", [stdPat "revenue", stdPat "sales", stdPat "total revenue"]),
   ("Income Statement", "EBITDA", [stdPat "ebitda", stdPat "earnings before"]),
   ("Income Statement", "Net Income",
      [stdPat "net income", stdPat "net profit", stdPat "profit after tax"]),
   ("Balance Sheet", "Total Assets", [stdPat "total assets", stdPat "assets"]),
   ("Balance Sheet", "Total Liabilities", [stdPat "total liabilities", stdPat "liabilities"]),
   ("Balance Sheet", "Equity", [stdPat "equity", holderPat "shareholders", holderPat "stockholders"]),
   ("Cash Flow Statement", "Operating Cash Flow",
      [stdPat "operating cash flow", stdPat "cash from operations"]),
   ("Cash Flow Statement", "Investing Cash Flow",
      [stdPat "investing cash flow", stdPat "cash from investing"]),
   ("Cash Flow Statement", "Financing Cash Flow",
      [stdPat "financing cash flow", stdPat "cash from financing"]),
   ("Cash Flow Statement", "Net Change in Cash",
      [stdPat "net change in cash", stdPat "net cash flow"])]

/-- `/<kw>[:\s]+\$?([\d,]+)/i` — the 0.9-confidence variant's standard shape. -/
def stdPatV2 (kw : String) : FinPat :=
  { toks := litToks kw ++ [Tok.plusCC CC.cs, Tok.optCC CC.dollar], dec := false }

/-- `/earnings before[:\s\w]*\$?([\d,]+)/i`. -/
def earningsPatV2 : FinPat :=
  { toks := litToks "earnings before" ++ [Tok.starCC CC.wcs, Tok.optCC CC.dollar], dec := false }

/-- The 0.9-confidence extractor's pattern table: (category, patterns). -/
def patternsV2 : List (String × List FinPat) :=
  [("Revenue", [stdPatV2 "revenue", stdPatV2 "sales", stdPatV2 "total revenue"]),
   ("EBITDA", [stdPatV2 "ebitda", earningsPatV2]),
   ("Net Income", [stdPatV2 "net income", stdPatV2 "net profit", stdPatV2 "profit"]),
   ("Total Assets", [stdPatV2 "total assets", stdPatV2 "assets"]),
   ("Total Liabilities", [stdPatV2 "total liabilities", stdPatV2 "liabilities"]),
   ("Cash Flow", [stdPatV2 "cash flow", stdPatV2 "operating cash flow"])]

/-! ### Year collection and attribution (0.85 variant) -/

/-- Whether a `/20\d{2}/` token starts at index `i`. -/
def yearTokenAt (text : List Char) (i : Nat) : Bool :=
  match (text.drop i).take 4 with
  | [a, b, c, d] => a == '2' && b == '0' && c.isDigit && d.isDigit
  | _ => false

/-- All matches of `/20\d{2}/g`, left to right, non-overlapping. -/
def yearMatchesAux (text : List Char) : Nat → Nat → List (List Char)
  | 0, _ => []
  | fuel + 1, i =>
    if i < text.length then
      if yearTokenAt text i then ((text.drop i).take 4) :: yearMatchesAux text fuel (i + 4)
      else yearMatchesAux text fuel (i + 1)
    else []

/-- All `/20\d{2}/g` matches of the text. -/
def yearMatches (text : List Char) : List (List Char) :=
  yearMatchesAux text (text.length + 1) 0

/-- The candidate-year set (`foundYears` in the source): the deduplicated
year tokens, or the current and previous calendar year when none occur. -/
def foundYears (text : List Char) (nowYear : Nat) : List (List Char) :=
  let m := yearMatches text
  if m.isEmpty then [(toString nowYear).data, (toString (nowYear - 1)).data]
  else dedupFirst m

/-- One step of the source's closest-year loop: look the candidate year up
with `text.indexOf(year, Math.max(0, matchIndex - 200))` and keep it when it
is strictly closer than the best so far and within 300 characters. -/
def chooseStep (text : List Char) (matchIndex : Nat) (acc : List Char × Option Nat)
    (y : List Char) : List Char × Option Nat :=
  match indexOfFrom text y (matchIndex - 200) with
  | none => acc
  | some yearIndex =>
    let d := Nat.dist yearIndex matchIndex
    let better := match acc.2 with
      | none => true
      | some best => d < best
    if better && d < 300 then (y, some d) else acc

/-- The year attributed to a match at `matchIndex`: the source folds the
closest-year loop over the candidate years, defaulting to the first-found
candidate. -/
def chooseYear (text : List Char) (years : List (List Char)) (matchIndex : Nat) : List Char :=
  match years with
  | [] => []
  | y0 :: _ => (years.foldl (chooseStep text matchIndex) (y0, none)).1

/-! ### The 0.85-confidence extractor (`AnalysisEngine.extractFinancialFigures`) -/

/-- One extracted financial data point (the source's `ExtractedFigure`). -/
structure ExtractedFigure where
  category : String
  year : List Char
  value : ℚ
  label : String
  documentName : String
  location : String
  confidence : ℚ
deriving DecidableEq, Repr

/-- Extension of a file name: `fileName.toLowerCase().split('.').pop()` —
the lowercased suffix after the last dot (the whole name when it has no dot,
the empty string for a trailing dot, exactly as `split`/`pop` behave). -/
def extensionOf (name : String) : String :=
  String.mk (((name.data.map Char.toLower).reverse.takeWhile (fun c => c ≠ '.')).reverse)

/-- JS `String.prototype.trim`: strip leading and trailing whitespace. -/
def jsTrim (s : String) : String :=
  String.mk (((s.data.dropWhile Char.isWhitespace).reverse.dropWhile
    Char.isWhitespace).reverse)

/-- Location heuristic by file extension. -/
def locationFor (fileName : String) (matchIndex : Nat) : String :=
  let ext := extensionOf fileName
  if ext = "pdf" then "PDF page " ++ toString (matchIndex / 2000 + 1)
  else if ext = "xlsx" then "Excel worksheet"
  else if ext = "docx" then "Word document"
  else "Document content"

/-- Per-match processing of the 0.85-confidence extractor: strip commas,
parse, and emit a figure only for a parse that is strictly positive. -/
def figureOfMatch (text : List Char) (years : List (List Char))
    (fileName category field : String) (m : Nat × List Char × Nat) : Option ExtractedFigure :=
  let valueStr := m.2.1.filter (fun c => c ≠ ',')
  match parseFloatQ valueStr with
  | none => none
  | some v =>
    if 0 < v then
      some { category := category, year := chooseYear text years m.1, value := v,
             label := field, documentName := fileName,
             location := locationFor fileName m.1, confidence := mkRat 85 100 }
    else none

/-- The 0.85-confidence extractor (`AnalysisEngine.extractFinancialFigures`):
all matches of every pattern, in table order. -/
def extractFinancialFigures (text : List Char) (fileName : String) (nowYear : Nat) :
    List ExtractedFigure :=
  let years := foundYears text nowYear
  patternsV1.flatMap (fun entry =>
    entry.2.2.flatMap (fun p =>
      (execAll p text).filterMap (figureOfMatch text years fileName entry.1 entry.2.1)))

/-! ### The 0.9-confidence extractor (`AnalysisDashboard.extractFinancialFigures`) -/

/-- A figure of the 0.9-confidence variant (its `ExtractedFigure` shape has
no separate label field; the category plays the field role). -/
structure Figure2 where
  category : String
  value : ℚ
  year : List Char
  documentName : String
  location : String
  confidence : ℚ
deriving DecidableEq, Repr

/-- Lexicographic (UTF code point) comparison of character lists, the order
used by JavaScript's default `Array.sort` on strings. -/
def lexLe : List Char → List Char → Bool
  | [], _ => true
  | _ :: _, [] => false
  | a :: as, b :: bs => if a = b then lexLe as bs else decide (a < b)

/-- Insert into a lexicographically sorted list. -/
def insertSorted (x : List Char) : List (List Char) → List (List Char)
  | [] => [x]
  | y :: ys => if lexLe x y then x :: y :: ys else y :: insertSorted x ys

/-- Sort lexicographically ascending (JS `Array.sort` default). -/
def sortLex (l : List (List Char)) : List (List Char) :=
  l.foldr insertSorted []

/-- The 0.9 variant's year list: `[...new Set(yearMatches)].sort().reverse()`. -/
def sortedYearsV2 (text : List Char) : List (List Char) :=
  (sortLex (dedupFirst (yearMatches text))).reverse

/-- First `/20\d{2}/` match of a string (non-global `context.match`). -/
def firstYearIn (context : List Char) : Option (List Char) :=
  (yearMatches context).head?

/-- Per-pattern processing of the 0.9-confidence extractor: only the first
match of each pattern is used; the guard is `!isNaN(value)` (no positivity
check); the year comes from a ±100-character context window around the first
occurrence of the matched text, falling back to the largest year of the
document and then to the literal `'2024'`. -/
def figure2OfPattern (text : List Char) (years : List (List Char))
    (fileName category : String) (p : FinPat) : Option Figure2 :=
  match execFirst p text with
  | none => none
  | some (i, cap, len) =>
    if cap.isEmpty then none
    else
      let valueStr := cap.filter (fun c => c ≠ ',')
      match parseFloatQ valueStr with
      | none => none
      | some v =>
        let full := (text.drop i).take len
        let mi := (indexOfFrom text full 0).getD 0
        let context := ((text.take mi).drop (mi - 100)) ++ full ++ ((text.drop mi).take 100)
        let year := match firstYearIn context with
          | some y => y
          | none => years.headD ("2024".data)
        some { category := category, value := v, year := year, documentName := fileName,
               location := "Found in document text", confidence := mkRat 9 10 }

/-- The 0.9-confidence extractor (`AnalysisDashboard.extractFinancialFigures`). -/
def extractFinancialFiguresV2 (text : List Char) (fileName : String) : List Figure2 :=
  let years := sortedYearsV2 text
  patternsV2.flatMap (fun entry =>
    entry.2.filterMap (figure2OfPattern text years fileName entry.1))

/-! ### Document analysis aggregator (`AnalysisEngine.analyzeDocument`) -/

/-- Extraction outcome classification. -/
inductive ExtractionStatus
  | success
  | partialStatus
  | failed
deriving DecidableEq, Repr

/-- One document's extraction outcome (the source's `DocumentAnalysis`). -/
structure DocumentAnalysis where
  fileName : String
  extractedFigures : List ExtractedFigure
  extractionStatus : ExtractionStatus
  errorMessage : Option String
deriving DecidableEq, Repr

/-- The attributes of an uploaded file that the analyzer inspects. -/
structure FileInfo where
  name : String
  size : Nat
deriving DecidableEq, Repr

/-- Text resolution of the 0.85 aggregator: the URL strategy's result is used
whenever it does not raise (even when it is empty); the blob strategy runs
only inside the `catch` of the URL strategy; when both raise, the combined
error is thrown. -/
def resolveText (urlOutcome blobOutcome : Except String String) (fname : String) :
    Except String String :=
  match urlOutcome with
  | .ok t => .ok t
  | .error _ =>
    match blobOutcome with
    | .ok t => .ok t
    | .error _ => .error ("Unable to extract content from " ++ fname ++
        ". The file may be corrupted, password-protected, or contain only images. " ++
        "Please ensure the file contains readable text content.")

/-- The body of `analyzeDocument` up to the `catch`: validations, text
resolution, the empty-text check, then figure extraction.  `urlOutcome` is
the combined outcome of `storage.upload` plus `extractFromUrl`;
`blobOutcome` is the outcome of `extractFromBlob`. -/
def analyzeDocumentE (file : FileInfo) (urlOutcome blobOutcome : Except String String)
    (nowYear : Nat) : Except String (List ExtractedFigure) :=
  if file.size = 0 then
    .error ("Invalid file: " ++ file.name ++ " - file is empty or corrupted")
  else if 50 * 1024 * 1024 < file.size then
    .error ("File too large: " ++ file.name ++ " - maximum size is 50MB")
  else if ¬(extensionOf file.name = "pdf" ∨ extensionOf file.name = "docx" ∨
      extensionOf file.name = "xlsx") then
    .error ("Unsupported file type: " ++ extensionOf file.name ++
      " - only PDF, DOCX, and XLSX files are supported")
  else
    match resolveText urlOutcome blobOutcome file.name with
    | .error msg => .error msg
    | .ok text =>
      if jsTrim text = "" then
        .error ("No readable text content found in " ++ file.name ++
          ". The document may be empty, corrupted, or contain only images.")
      else .ok (extractFinancialFigures text.data file.name nowYear)

/-- `analyzeDocument`: the `catch` turns any raised error into a `failed`
analysis; otherwise the status is `success` exactly when figures were found,
else `partial` with an advisory message. -/
def analyzeDocument (file : FileInfo) (urlOutcome blobOutcome : Except String String)
    (nowYear : Nat) : DocumentAnalysis :=
  match analyzeDocumentE file urlOutcome blobOutcome nowYear with
  | .error msg =>
    { fileName := file.name, extractedFigures := [], extractionStatus := .failed,
      errorMessage := some msg }
  | .ok figs =>
    { fileName := file.name, extractedFigures := figs,
      extractionStatus := if figs.length > 0 then .success else .partialStatus,
      errorMessage := if figs.length = 0 then
          some ("No financial figures found in document. " ++
            "Please ensure the document contains financial data with clear labels and values.")
        else none }

/-- The sample text the 0.9 aggregator substitutes when both extraction
strategies raise (`i` is the zero-based document index). -/
def sampleTextV2 (fname : String) (i : Nat) : String :=
  "Sample Financial Data for " ++ fname ++ ":\n" ++
  "              Revenue: " ++ toString (1200000 + i * 20000) ++ " (2024)\n" ++
  "              EBITDA: " ++ toString (300000 + i * 5000) ++ " (2024)\n" ++
  "              Net Income: " ++ toString (150000 + i * 3000) ++ " (2024)\n" ++
  "              Total Assets: " ++ toString (2500000 + i * 50000) ++ " (2024)\n" ++
  "              Total Liabilities: " ++ toString (1000000 + i * 10000) ++ " (2024)\n" ++
  "              Cash Flow: " ++ toString (200000 + i * 8000) ++ " (2024)"

/-- Text resolution of the 0.9 aggregator (`AnalysisDashboard.analyzeDocuments`):
URL strategy first, blob strategy inside its `catch`, and the sample text when
both raise — this variant never fails a document at the extraction stage. -/
def chooseTextV2 (urlOutcome blobOutcome : Except String String) (fname : String)
    (i : Nat) : String :=
  match urlOutcome with
  | .ok t => t
  | .error _ =>
    match blobOutcome with
    | .ok t => t
    | .error _ => sampleTextV2 fname i

/-! ### Cross-document comparator (`CrossCheckReport` / `generateComparisons`) -/

/-- One (field, year) cross-document comparison (the source's
`ComparisonResult`). -/
structure ComparisonResult where
  year : List Char
  field : String
  values : List (String × Option ℚ)
  consistent : Bool
  category : String
deriving DecidableEq, Repr

/-- The first figure of an analysis matching a (field, year) pair
(`analysis.extractedFigures.find(...)`). -/
def figureFor (a : DocumentAnalysis) (field : String) (year : List Char) :
    Option ExtractedFigure :=
  a.extractedFigures.find? (fun f => f.label == field && f.year == year)

/-- The per-document values object for a (field, year) pair: every analysis
assigns `values[analysis.fileName]`, so a repeated file name overwrites the
earlier entry. -/
def buildValues (analyses : List DocumentAnalysis) (field : String) (year : List Char) :
    List (String × Option ℚ) :=
  analyses.foldl
    (fun m a => upsert a.fileName ((figureFor a field year).map (fun f => f.value)) m) []

/-- The category recorded for a comparison: the last analysis (in list order)
holding a matching figure wins; defaults to `'Income Statement'`. -/
def categoryFor (analyses : List DocumentAnalysis) (field : String) (year : List Char) :
    String :=
  analyses.foldl
    (fun c a => match figureFor a field year with
      | some f => f.category
      | none => c)
    "Income Statement"

/-- All distinct figure labels across the analyses, in first-appearance order. -/
def allFields (analyses : List DocumentAnalysis) : List String :=
  dedupFirst (analyses.flatMap (fun a => a.extractedFigures.map (fun f => f.label)))

/-- All distinct figure years across the analyses, in first-appearance order. -/
def allYears (analyses : List DocumentAnalysis) : List (List Char) :=
  dedupFirst (analyses.flatMap (fun a => a.extractedFigures.map (fun f => f.year)))

/-- The non-null values of a values object, in entry order. -/
def presentValues (values : List (String × Option ℚ)) : List ℚ :=
  values.filterMap (fun p => p.2)

/-- The comparison candidate for one (field, year) pair: emitted only when at
least two entries are non-null; `consistent` is `uniqueValues.size === 1`. -/
def mkComparison (analyses : List DocumentAnalysis) (field : String) (year : List Char) :
    Option ComparisonResult :=
  let values := buildValues analyses field year
  let nonNull := presentValues values
  if 2 ≤ nonNull.length then
    some { year := year, field := field, values := values,
           consistent := (dedupFirst nonNull).length == 1,
           category := categoryFor analyses field year }
  else none

/-- All emitted comparisons, iterating fields then years as the source does. -/
def comparisons (analyses : List DocumentAnalysis) : List ComparisonResult :=
  (allFields analyses).flatMap (fun f =>
    (allYears analyses).filterMap (fun y => mkComparison analyses f y))

/-- The report's derived summary counts. -/
structure ReportSummary where
  totalComparisons : Nat
  consistentCount : Nat
  discrepancyCount : Nat
  keyDiscrepancies : List String
  consistentSections : List String
deriving DecidableEq, Repr

/-- The source's `CrossCheckReport` value. -/
structure Report where
  documentAnalyses : List DocumentAnalysis
  comparisons : List ComparisonResult
  summary : ReportSummary
deriving DecidableEq, Repr

/-- One key-discrepancy summary line (`toLocaleString` rendered via `ratStr`). -/
def keyDiscrepancyLine (c : ComparisonResult) : String :=
  let docValues := String.intercalate ", "
    (c.values.filterMap (fun p => p.2.map (fun v => p.1 ++ ": $" ++ ratStr v)))
  c.field ++ " for " ++ String.mk c.year ++ " differs (" ++ docValues ++ ")"

/-- The comparator (`CrossCheckReport`'s `report` computation): comparisons
plus summary, rebuilt from the analyses list alone. -/
def crossCheckReport (analyses : List DocumentAnalysis) : Report :=
  let comps := comparisons analyses
  let total := comps.length
  let consistentCount := (comps.filter (fun c => c.consistent)).length
  { documentAnalyses := analyses,
    comparisons := comps,
    summary :=
      { totalComparisons := total,
        consistentCount := consistentCount,
        discrepancyCount := total - consistentCount,
        keyDiscrepancies :=
          ((comps.filter (fun c => !c.consistent)).take 5).map keyDiscrepancyLine,
        consistentSections :=
          dedupFirst ((comps.filter (fun c => c.consistent)).map (fun c => c.category)) } }

/-! ### The 0.9 comparator (`AnalysisDashboard.analyzeDocuments`, comparison phase) -/

/-- A matching-values record (`report.matches` entries). -/
structure MatchRecord where
  category : String
  year : List Char
  value : ℚ
  documents : List String
  status : String
deriving DecidableEq, Repr

/-- One document's contribution to a discrepancy record. -/
structure DiscrepancyValue where
  documentName : String
  value : ℚ
  location : String
deriving DecidableEq, Repr

/-- A discrepancy record (`report.discrepancies` entries). -/
structure DiscrepancyRecord where
  category : String
  year : List Char
  values : List DiscrepancyValue
  status : String
  variance : ℚ
  suggestion : String
deriving DecidableEq, Repr

/-- A JavaScript number that may be `NaN`. -/
inductive JsNum
  | nan
  | val (q : ℚ)
deriving DecidableEq, Repr

/-- `m / (m + d) * 100` with JavaScript semantics: `0 / 0` is `NaN`. -/
def jsScore (m d : Nat) : JsNum :=
  if m + d = 0 then .nan else .val ((m : ℚ) / ((m : ℚ) + (d : ℚ)) * 100)

/-- The 0.9 report's summary. -/
structure Summary2 where
  totalDocuments : Nat
  totalFiguresFound : Nat
  discrepancyCount : Nat
  matchCount : Nat
  consistencyScore : JsNum
deriving DecidableEq, Repr

/-- The 0.9 variant's `AnalysisReport` (fields relevant to comparison). -/
structure AnalysisReport where
  documentNames : List String
  extractedFigures : List (String × List Figure2)
  discrepancies : List DiscrepancyRecord
  matchRecords : List MatchRecord  -- the source's `matches` (a Lean keyword)
  summary : Summary2
deriving DecidableEq, Repr

/-- `figures.find(f => f.category === category && f.year === year)`. -/
def findFig2 (figs : List Figure2) (cat : String) (year : List Char) : Option Figure2 :=
  figs.find? (fun f => f.category == cat && f.year == year)

/-- The documents holding a figure for a (category, year) pair, with that
figure (`figuresForCategoryYear` with its null entries filtered out). -/
def presentFor (data : List (String × List Figure2)) (cat : String) (year : List Char) :
    List (String × Figure2) :=
  data.filterMap (fun e => (findFig2 e.2 cat year).map (fun f => (e.1, f)))

/-- All distinct categories across the data, in first-appearance order. -/
def allCats2 (data : List (String × List Figure2)) : List String :=
  dedupFirst (data.flatMap (fun e => e.2.map (fun f => f.category)))

/-- All distinct years across the data, in first-appearance order. -/
def allYears2 (data : List (String × List Figure2)) : List (List Char) :=
  dedupFirst (data.flatMap (fun e => e.2.map (fun f => f.year)))

/-- The (category, year) pairs the 0.9 comparator iterates, in order. -/
def pairsV2 (data : List (String × List Figure2)) : List (String × List Char) :=
  (allCats2 data).flatMap (fun c => (allYears2 data).map (fun y => (c, y)))

/-- `Math.max(...values)` over a nonempty list. -/
def listMax : List ℚ → ℚ
  | [] => 0
  | x :: xs => xs.foldl max x

/-- `Math.min(...values)` over a nonempty list. -/
def listMin : List ℚ → ℚ
  | [] => 0
  | x :: xs => xs.foldl min x

/-- The discrepancy suggestion string (`toLocaleString` rendered via `ratStr`). -/
def mkSuggestion (cat : String) (year : List Char) (vals : List ℚ) : String :=
  cat ++ " (" ++ String.mk year ++ ") values differ across documents. Range: " ++
  ratStr (listMin vals) ++ " - " ++ ratStr (listMax vals) ++ " (variance: " ++
  ratStr (listMax vals - listMin vals) ++ "). Please verify which figure is correct."

/-- The match records pushed by the 0.9 comparator, in iteration order. -/
def matchesV2 (data : List (String × List Figure2)) : List MatchRecord :=
  (pairsV2 data).filterMap (fun cy =>
    let pres := presentFor data cy.1 cy.2
    let vals := pres.map (fun p => p.2.value)
    if 1 < pres.length ∧ (dedupFirst vals).length = 1 then
      some { category := cy.1, year := cy.2, value := (dedupFirst vals).headD 0,
             documents := pres.map (fun p => p.1), status := "match" }
    else none)

/-- The discrepancy records pushed by the 0.9 comparator, in iteration order. -/
def discrepanciesV2 (data : List (String × List Figure2)) : List DiscrepancyRecord :=
  (pairsV2 data).filterMap (fun cy =>
    let pres := presentFor data cy.1 cy.2
    let vals := pres.map (fun p => p.2.value)
    if 1 < pres.length ∧ ¬(dedupFirst vals).length = 1 then
      some { category := cy.1, year := cy.2,
             values := pres.map (fun p =>
               { documentName := p.1, value := p.2.value, location := p.2.location }),
             status := "discrepancy",
             variance := listMax vals - listMin vals,
             suggestion := mkSuggestion cy.1 cy.2 vals }
    else none)

/-- The comparison phase of `AnalysisDashboard.analyzeDocuments`: builds the
report from the per-document extracted figures (the phase only runs when at
least one figure was found overall). -/
def buildAnalysisReport (data : List (String × List Figure2)) : AnalysisReport :=
  let ms := matchesV2 data
  let ds := discrepanciesV2 data
  { documentNames := data.map (fun e => e.1),
    extractedFigures := data,
    discrepancies := ds,
    matchRecords := ms,
    summary :=
      { totalDocuments := data.length,
        totalFiguresFound := (data.map (fun e => e.2.length)).sum,
        discrepancyCount := ds.length,
        matchCount := ms.length,
        consistencyScore := jsScore ms.length ds.length } }

/-! ### Concrete fixtures used by witnesses and counterexamples -/

/-- The last analysis carrying a given file name (the entry that survives the
values-object overwrite). -/
def lastNamed (analyses : List DocumentAnalysis) (n : String) : Option DocumentAnalysis :=
  (analyses.filter (fun a => a.fileName == n)).getLast?

/-- Fixture: a Revenue figure for fiscal year 2024. -/
def figRevenue (doc : String) (v : ℚ) : ExtractedFigure :=
  { category := "Income Statement", year := "2024".data, value := v, label := "Revenue",
    documentName := doc, location := "PDF page 1", confidence := mkRat 85 100 }

/-- Fixture document analyses. -/
def docA : DocumentAnalysis :=
  { fileName := "a.pdf", extractedFigures := [figRevenue "a.pdf" 100],
    extractionStatus := .success, errorMessage := none }

def docB : DocumentAnalysis :=
  { fileName := "b.pdf", extractedFigures := [figRevenue "b.pdf" 100],
    extractionStatus := .success, errorMessage := none }

/-- Fixture sharing `docA`'s file name but with a different Revenue value. -/
def docA2 : DocumentAnalysis :=
  { fileName := "a.pdf", extractedFigures := [figRevenue "a.pdf" 200],
    extractionStatus := .success, errorMessage := none }

/-- The comparison `crossCheckReport [docA, docB]` emits. -/
def compW : ComparisonResult :=
  { year := "2024".data, field := "Revenue",
    values := [("a.pdf", some 100), ("b.pdf", some 100)],
    consistent := true, category := "Income Statement" }

/-- The comparison `crossCheckReport [docA, docA2, docB]` emits: the second
analysis overwrote the first one's entry for `"a.pdf"`. -/
def compW10 : ComparisonResult :=
  { year := "2024".data, field := "Revenue",
    values := [("a.pdf", some 200), ("b.pdf", some 100)],
    consistent := false, category := "Income Statement" }

/-- Fixture 0.9-variant figure for fiscal year 2024. -/
def fig2W (cat doc : String) (v : ℚ) : Figure2 :=
  { category := cat, value := v, year := "2024".data, documentName := doc,
    location := "Found in document text", confidence := mkRat 9 10 }

/-- Two documents with figures for disjoint (category, year) pairs: every
pair has a single source, so no match and no discrepancy is recorded. -/
def dataC7 : List (String × List Figure2) :=
  [("a", [fig2W "Revenue" "a" 100]), ("b", [fig2W "EBITDA" "b" 50])]

/-- Two documents reporting 1,000,000 and 1,200,000 for Revenue 2024. -/
def dataW8 : List (String × List Figure2) :=
  [("a", [fig2W "Revenue" "a" 1000000]), ("b", [fig2W "Revenue" "b" 1200000])]

/-- The value-0 figure the 0.9 variant extracts from `"revenue: 0"`. -/
def fig2Zero : Figure2 :=
  { category := "Revenue", value := 0, year := "2024".data, documentName := "a.pdf",
    location := "Found in document text", confidence := mkRat 9 10 }

/-- The figure the 0.85 variant extracts from `"sales: 5 2024"`. -/
def figSales5 : ExtractedFigure :=
  { category := "Income Statement", year := "2024".data, value := 5, label := "Revenue",
    documentName := "a.pdf", location := "PDF page 1", confidence := mkRat 85 100 }

/-! ### Helper lemmas -/

theorem mem_dedupFirstAux {α : Type} [DecidableEq α] (a : α) (l : List α) :
    ∀ seen, a ∈ dedupFirstAux seen l ↔ (a ∈ l ∧ a ∉ seen) := by
  induction l with
  | nil => simp [dedupFirstAux]
  | cons x xs ih =>
    intro seen
    by_cases hx : x ∈ seen
    · rw [dedupFirstAux, if_pos hx, ih]
      simp only [List.mem_cons]
      constructor
      · rintro ⟨h1, h2⟩
        exact ⟨Or.inr h1, h2⟩
      · rintro ⟨h1 | h1, h2⟩
        · exact absurd (h1 ▸ hx) h2
        · exact ⟨h1, h2⟩
    · rw [dedupFirstAux, if_neg hx]
      simp only [List.mem_cons, ih, List.mem_cons]
      by_cases hax : a = x
      · simp [hax, hx]
      · simp [hax]

theorem mem_dedupFirst {α : Type} [DecidableEq α] (a : α) (l : List α) :
    a ∈ dedupFirst l ↔ a ∈ l := by
  rw [dedupFirst, mem_dedupFirstAux]
  simp

theorem keysOf_upsert_mem {β : Type} (k n : String) (v : β) (m : List (String × β)) :
    n ∈ keysOf (upsert k v m) ↔ n = k ∨ n ∈ keysOf m := by
  induction m with
  | nil => simp [upsert, keysOf]
  | cons p rest ih =>
    obtain ⟨k', v'⟩ := p
    by_cases h : k' = k
    · subst h; simp [upsert, keysOf]
    · simp [upsert, h, keysOf] at ih ⊢
      rw [ih]
      tauto

theorem keysOf_upsert_nodup {β : Type} (k : String) (v : β) (m : List (String × β))
    (h : (keysOf m).Nodup) : (keysOf (upsert k v m)).Nodup := by
  induction m with
  | nil => simp [upsert, keysOf]
  | cons p rest ih =>
    obtain ⟨k', v'⟩ := p
    simp only [keysOf, List.map_cons, List.nodup_cons] at h
    by_cases hk : k' = k
    · subst hk
      have hup : upsert k' v ((k', v') :: rest) = (k', v) :: rest := by simp [upsert]
      rw [hup]
      simp only [keysOf, List.map_cons, List.nodup_cons]
      exact ⟨h.1, h.2⟩
    · have hup : upsert k v ((k', v') :: rest) = (k', v') :: upsert k v rest := by
        simp [upsert, hk]
      rw [hup]
      simp only [keysOf, List.map_cons, List.nodup_cons]
      refine ⟨?_, ih h.2⟩
      rw [show (upsert k v rest).map (fun p => p.1) = keysOf (upsert k v rest) from rfl,
        keysOf_upsert_mem]
      push_neg
      exact ⟨hk, h.1⟩

theorem lookupVal_upsert_self {β : Type} (k : String) (v : β) (m : List (String × β)) :
    lookupVal (upsert k v m) k = some v := by
  induction m with
  | nil => simp [upsert, lookupVal]
  | cons p rest ih =>
    obtain ⟨k', v'⟩ := p
    by_cases hk : k' = k
    · subst hk; simp [upsert, lookupVal]
    · have hup : upsert k v ((k', v') :: rest) = (k', v') :: upsert k v rest := by
        simp [upsert, hk]
      rw [hup]
      have hkk : (k' == k) = false := by simp [hk]
      simp only [lookupVal, List.find?_cons, hkk]
      exact ih

theorem lookupVal_upsert_other {β : Type} (k n : String) (v : β) (m : List (String × β))
    (h : n ≠ k) : lookupVal (upsert k v m) n = lookupVal m n := by
  have hkn : (k == n) = false := by
    simp only [beq_eq_false_iff_ne]
    exact fun hc => h hc.symm
  induction m with
  | nil => simp [upsert, lookupVal, List.find?_cons, hkn]
  | cons p rest ih =>
    obtain ⟨k', v'⟩ := p
    by_cases hk : k' = k
    · subst hk
      have hup : upsert k' v ((k', v') :: rest) = (k', v) :: rest := by simp [upsert]
      rw [hup]
      simp [lookupVal, List.find?_cons, hkn]
    · have hup : upsert k v ((k', v') :: rest) = (k', v') :: upsert k v rest := by
        simp [upsert, hk]
      rw [hup]
      by_cases hknn : k' = n
      · simp [lookupVal, List.find?_cons, hknn]
      · have hkn2 : (k' == n) = false := by simp [hknn]
        simp only [lookupVal, List.find?_cons, hkn2]
        exact ih

theorem buildValues_concat (A : List DocumentAnalysis) (a : DocumentAnalysis)
    (f : String) (y : List Char) :
    buildValues (A ++ [a]) f y =
      upsert a.fileName ((figureFor a f y).map (fun g => g.value)) (buildValues A f y) := by
  simp [buildValues, List.foldl_append]

theorem keysOf_buildValues_nodup (A : List DocumentAnalysis) (f : String) (y : List Char) :
    (keysOf (buildValues A f y)).Nodup := by
  induction A using List.reverseRecOn with
  | nil => simp [buildValues, keysOf]
  | append_singleton A a ih =>
    rw [buildValues_concat]
    exact keysOf_upsert_nodup _ _ _ ih

theorem mem_keysOf_buildValues (A : List DocumentAnalysis) (f : String) (y : List Char)
    (n : String) :
    n ∈ keysOf (buildValues A f y) ↔ n ∈ A.map (fun a => a.fileName) := by
  induction A using List.reverseRecOn with
  | nil => simp [buildValues, keysOf]
  | append_singleton A a ih =>
    rw [buildValues_concat, keysOf_upsert_mem, ih, List.map_append, List.mem_append]
    simp only [List.map_cons, List.map_nil, List.mem_singleton]
    tauto

theorem lookupVal_buildValues (A : List DocumentAnalysis) (f : String) (y : List Char)
    (n : String) :
    lookupVal (buildValues A f y) n =
      (lastNamed A n).map (fun a => (figureFor a f y).map (fun g => g.value)) := by
  induction A using List.reverseRecOn with
  | nil => simp [buildValues, lookupVal, lastNamed]
  | append_singleton A a ih =>
    rw [buildValues_concat]
    by_cases hn : n = a.fileName
    · subst hn
      rw [lookupVal_upsert_self]
      simp [lastNamed, List.filter_append]
    · rw [lookupVal_upsert_other _ _ _ _ hn, ih]
      have hf : (a.fileName == n) = false := by
        simp only [beq_eq_false_iff_ne]
        exact fun hc => hn hc.symm
      simp [lastNamed, List.filter_append, hf]

theorem parseFloatQ_nonneg (s : List Char) (v : ℚ) (h : parseFloatQ s = some v) :
    0 ≤ v := by
  simp only [parseFloatQ] at h
  split at h
  · split at h
    · exact absurd h (by simp)
    · injection h with h
      subst h
      positivity
  · split at h
    · exact absurd h (by simp)
    · injection h with h
      subst h
      positivity

theorem figureOfMatch_pos (text : List Char) (years : List (List Char))
    (fileName category field : String) (m : Nat × List Char × Nat) (fig : ExtractedFigure)
    (h : figureOfMatch text years fileName category field m = some fig) : 0 < fig.value := by
  simp only [figureOfMatch] at h
  split at h
  · exact absurd h (by simp)
  case _ v hv =>
    split at h
    · injection h with h
      subst h
      assumption
    · exact absurd h (by simp)

theorem figureOfMatch_none (text : List Char) (years : List (List Char))
    (fileName category field : String) (m : Nat × List Char × Nat)
    (h : parseFloatQ (m.2.1.filter (fun c => c ≠ ',')) = none ∨
         ∃ v, parseFloatQ (m.2.1.filter (fun c => c ≠ ',')) = some v ∧ v ≤ 0) :
    figureOfMatch text years fileName category field m = none := by
  rcases h with h | ⟨v, hv, hv0⟩
  · simp only [figureOfMatch]
    rw [h]
  · simp only [figureOfMatch]
    rw [hv]
    simp [not_lt.mpr hv0]

theorem figure2OfPattern_nonneg (text : List Char) (years : List (List Char))
    (fileName category : String) (p : FinPat) (fig : Figure2)
    (h : figure2OfPattern text years fileName category p = some fig) : 0 ≤ fig.value := by
  simp only [figure2OfPattern] at h
  split at h
  · exact absurd h (by simp)
  · split at h
    · exact absurd h (by simp)
    · split at h
      · exact absurd h (by simp)
      case _ v hv =>
        injection h with h
        subst h
        exact parseFloatQ_nonneg _ _ hv

theorem mkComparison_eq_some (A : List DocumentAnalysis) (f : String) (y : List Char)
    (c : ComparisonResult) (h : mkComparison A f y = some c) :
    c.field = f ∧ c.year = y ∧ c.values = buildValues A f y ∧
    2 ≤ (presentValues (buildValues A f y)).length ∧
    (c.consistent = true ↔ (dedupFirst (presentValues (buildValues A f y))).length = 1) := by
  simp only [mkComparison] at h
  split at h
  · injection h with h
    subst h
    refine ⟨rfl, rfl, rfl, by assumption, ?_⟩
    simp
  · exact absurd h (by simp)

theorem exists_of_mem_comparisons (A : List DocumentAnalysis) (c : ComparisonResult)
    (h : c ∈ comparisons A) : ∃ f y, mkComparison A f y = some c := by
  simp only [comparisons, List.mem_flatMap, List.mem_filterMap] at h
  obtain ⟨f, _, y, _, hc⟩ := h
  exact ⟨f, y, hc⟩

theorem mkComparison_singleton (a : DocumentAnalysis) (f : String) (y : List Char) :
    mkComparison [a] f y = none := by
  have hbv : buildValues [a] f y = [(a.fileName, (figureFor a f y).map (fun g => g.value))] := by
    simp [buildValues, upsert]
  simp only [mkComparison, hbv]
  cases hfig : (figureFor a f y).map (fun g => g.value) <;>
    simp [presentValues, List.filterMap, hfig]

theorem crossCheckReport_comparisons (A : List DocumentAnalysis) :
    (crossCheckReport A).comparisons = comparisons A := rfl

/-! ### Claims -/

/-- C1: the comparator emits a `ComparisonResult` for a (field, year) pair
only when at least 2 documents have a non-absent value for that pair, with
`consistent = true` iff the set of present values has cardinality 1; a
single-analysis input yields zero comparisons. -/
theorem c1_comparison_emission_invariant : ∀ analyses : List DocumentAnalysis,
    (∀ c ∈ (crossCheckReport analyses).comparisons,
       c.values = buildValues analyses c.field c.year ∧
       2 ≤ (presentValues c.values).length ∧
       (c.consistent = true ↔ (dedupFirst (presentValues c.values)).length = 1)) ∧
    (∀ a : DocumentAnalysis, (crossCheckReport [a]).comparisons = []) := by
  intro analyses
  constructor
  · intro c hc
    rw [crossCheckReport_comparisons] at hc
    obtain ⟨f, y, hm⟩ := exists_of_mem_comparisons analyses c hc
    obtain ⟨hf, hy, hv, hlen, hcons⟩ := mkComparison_eq_some analyses f y c hm
    subst hf
    subst hy
    exact ⟨hv, by rw [hv]; exact hlen, by rw [hv]; exact hcons⟩
  · intro a
    rw [crossCheckReport_comparisons]
    apply List.eq_nil_iff_forall_not_mem.mpr
    intro c hc
    obtain ⟨f, y, hm⟩ := exists_of_mem_comparisons [a] c hc
    rw [mkComparison_singleton] at hm
    cases hm

/-- Witness for C1 at a concrete input: `crossCheckReport [docA, docB]`
emits `compW`, and a single-document input emits nothing. -/
theorem c1_witness :
    compW.values = buildValues [docA, docB] compW.field compW.year ∧
    2 ≤ (presentValues compW.values).length ∧
    (compW.consistent = true ↔ (dedupFirst (presentValues compW.values)).length = 1) ∧
    (crossCheckReport [docA]).comparisons = [] := by
  have h := c1_comparison_emission_invariant [docA, docB]
  have hm : compW ∈ (crossCheckReport [docA, docB]).comparisons := by decide
  exact ⟨(h.1 compW hm).1, (h.1 compW hm).2.1, (h.1 compW hm).2.2,
    (c1_comparison_emission_invariant [docA]).2 docA⟩

/-- C4: `extractionStatus = success` iff figures are non-empty; `failed` iff
the per-document pipeline raised (and then figures are empty with an error
message set); `partial` iff extraction succeeded with zero figures. -/
theorem c4_status_classification :
    ∀ (file : FileInfo) (urlOutcome blobOutcome : Except String String) (nowYear : Nat),
    ((analyzeDocument file urlOutcome blobOutcome nowYear).extractionStatus = .success ↔
       (analyzeDocument file urlOutcome blobOutcome nowYear).extractedFigures ≠ []) ∧
    ((analyzeDocument file urlOutcome blobOutcome nowYear).extractionStatus = .failed ↔
       ∃ msg, analyzeDocumentE file urlOutcome blobOutcome nowYear = .error msg) ∧
    ((analyzeDocument file urlOutcome blobOutcome nowYear).extractionStatus = .failed →
       (analyzeDocument file urlOutcome blobOutcome nowYear).extractedFigures = [] ∧
       ((analyzeDocument file urlOutcome blobOutcome nowYear).errorMessage).isSome = true) ∧
    ((analyzeDocument file urlOutcome blobOutcome nowYear).extractionStatus = .partialStatus ↔
       analyzeDocumentE file urlOutcome blobOutcome nowYear = .ok []) := by
  intro file u b now
  cases hE : analyzeDocumentE file u b now with
  | error msg => simp [analyzeDocument, hE]
  | ok figs =>
    cases figs with
    | nil => simp [analyzeDocument, hE]
    | cons g gs => simp [analyzeDocument, hE]

/-- Witness for C4 at a concrete failing input (empty file): the `failed`
analysis carries no figures and a set error message. -/
theorem c4_witness :
    (analyzeDocument ⟨"a.pdf", 0⟩ (Except.ok "x") (Except.ok "y") 2024).extractedFigures = [] ∧
    ((analyzeDocument ⟨"a.pdf", 0⟩ (Except.ok "x") (Except.ok "y") 2024).errorMessage).isSome
      = true := by
  have h := (c4_status_classification ⟨"a.pdf", 0⟩ (Except.ok "x") (Except.ok "y") 2024).2.2.1
    (by decide)
  exact ⟨h.1, h.2⟩

/-- C6: `discrepancyCount + consistentCount = totalComparisons` in every
report the comparator produces. -/
theorem c6_count_equation : ∀ analyses : List DocumentAnalysis,
    (crossCheckReport analyses).summary.discrepancyCount +
      (crossCheckReport analyses).summary.consistentCount =
    (crossCheckReport analyses).summary.totalComparisons := by
  intro analyses
  simp only [crossCheckReport]
  exact Nat.sub_add_cancel (List.length_filter_le _ _)

/-- C9: the comparator is a pure function of the analyses list — two
computations over the same list give identical reports (comparisons in the
same order, identical summaries). -/
theorem c9_comparator_deterministic : ∀ analyses : List DocumentAnalysis,
    crossCheckReport analyses = crossCheckReport analyses ∧
    (crossCheckReport analyses).comparisons = (crossCheckReport analyses).comparisons ∧
    (crossCheckReport analyses).summary = (crossCheckReport analyses).summary :=
  fun _ => ⟨rfl, rfl, rfl⟩

/-- C10: every emitted comparison's values object has exactly one entry per
distinct file name (keys are nodup, and a name is a key iff some analysis
carries it); each entry is the first matching figure's value (or null) of the
*last* analysis with that file name, so duplicate file names overwrite. -/
theorem c10_values_keying : ∀ analyses : List DocumentAnalysis,
    ∀ c ∈ (crossCheckReport analyses).comparisons,
    (keysOf c.values).Nodup ∧
    (∀ n, n ∈ keysOf c.values ↔ n ∈ analyses.map (fun a => a.fileName)) ∧
    (∀ n, lookupVal c.values n =
       (lastNamed analyses n).map
         (fun a => (figureFor a c.field c.year).map (fun g => g.value))) := by
  intro A c hc
  rw [crossCheckReport_comparisons] at hc
  obtain ⟨f, y, hm⟩ := exists_of_mem_comparisons A c hc
  obtain ⟨hf, hy, hv, _, _⟩ := mkComparison_eq_some A f y c hm
  subst hf
  subst hy
  rw [hv]
  exact ⟨keysOf_buildValues_nodup A c.field c.year,
    fun n => mem_keysOf_buildValues A c.field c.year n,
    fun n => lookupVal_buildValues A c.field c.year n⟩

/-- Witness for C10 at a concrete input with a duplicated file name: the
later `docA2` (value 200) overwrites the earlier `docA` (value 100). -/
theorem c10_witness :
    (keysOf compW10.values).Nodup ∧
    lookupVal compW10.values "a.pdf" =
      (lastNamed [docA, docA2, docB] "a.pdf").map
        (fun a => (figureFor a compW10.field compW10.year).map (fun g => g.value)) ∧
    lookupVal compW10.values "a.pdf" = some (some 200) := by
  have h := c10_values_keying [docA, docA2, docB] compW10 (by decide)
  exact ⟨h.1, h.2.2 "a.pdf", by decide⟩


theorem chooseStep_fst (text : List Char) (M : Nat) (acc : List Char × Option Nat)
    (y : List Char) :
    (chooseStep text M acc y).1 = acc.1 ∨ (chooseStep text M acc y).1 = y := by
  unfold chooseStep
  cases indexOfFrom text y (M - 200) with
  | none => exact Or.inl rfl
  | some yi =>
    dsimp only
    split
    · exact Or.inr rfl
    · exact Or.inl rfl

theorem chooseYear_singleton (text y : List Char) (M : Nat) :
    chooseYear text [y] M = y := by
  simp only [chooseYear, List.foldl_cons, List.foldl_nil]
  rcases chooseStep_fst text M (y, none) y with h | h <;> simp [h]

/-- C2: for a text with exactly one candidate year token, the extractor
attributes that year whenever it occurs within 300 characters of the match,
and falls back to the first-found candidate year otherwise. -/
theorem c2_year_attribution :
    ∀ (text y : List Char) (nowYear M : Nat),
    yearMatches text = [y] →
    ((∃ Y, occursAt text y Y = true ∧ Nat.dist M Y < 300) →
       chooseYear text (foundYears text nowYear) M = y) ∧
    ((∀ Y, Y < text.length → occursAt text y Y = true → ¬ Nat.dist M Y < 300) →
       chooseYear text (foundYears text nowYear) M = (foundYears text nowYear).headD []) := by
  intro text y now M hy
  have hfy : foundYears text now = [y] := by
    simp [foundYears, hy, dedupFirst, dedupFirstAux]
  rw [hfy]
  exact ⟨fun _ => chooseYear_singleton text y M, fun _ => chooseYear_singleton text y M⟩

/-- Witness for C2: in `"Revenue in 2024: 100"` the single candidate year
`2024` sits at offset 11; a match at offset 17 is within 300 characters, and
a (hypothetical) match offset 400 is not, falling back to the first-found
candidate. -/
theorem c2_witness :
    yearMatches ("Revenue in 2024: 100".data) = ["2024".data] ∧
    chooseYear ("Revenue in 2024: 100".data)
      (foundYears ("Revenue in 2024: 100".data) 2025) 17 = "2024".data ∧
    chooseYear ("Revenue in 2024: 100".data)
      (foundYears ("Revenue in 2024: 100".data) 2025) 400 =
      (foundYears ("Revenue in 2024: 100".data) 2025).headD [] := by
  refine ⟨by decide, ?_, ?_⟩
  · exact (c2_year_attribution ("Revenue in 2024: 100".data) ("2024".data) 2025 17
      (by decide)).1 ⟨11, by decide, by decide⟩
  · exact (c2_year_attribution ("Revenue in 2024: 100".data) ("2024".data) 2025 400
      (by decide)).2 (by decide)

/-- C3 (amended): the 0.85-confidence extractor emits only strictly positive
values and a match whose capture fails to parse or parses non-positive
produces no figure; the 0.9-confidence variant rejects only failed parses, so
its figures are merely non-negative (it can emit value 0). -/
theorem c3_positive_value_guard :
    ∀ (text : List Char) (fileName : String) (nowYear : Nat),
    (∀ fig ∈ extractFinancialFigures text fileName nowYear, 0 < fig.value) ∧
    (∀ (years : List (List Char)) (category field : String) (m : Nat × List Char × Nat),
       (parseFloatQ (m.2.1.filter (fun c => c ≠ ',')) = none ∨
        ∃ v, parseFloatQ (m.2.1.filter (fun c => c ≠ ',')) = some v ∧ v ≤ 0) →
       figureOfMatch text years fileName category field m = none) ∧
    (∀ fig ∈ extractFinancialFiguresV2 text fileName, 0 ≤ fig.value) := by
  intro text fileName now
  refine ⟨?_, ?_, ?_⟩
  · intro fig hfig
    simp only [extractFinancialFigures, List.mem_flatMap, List.mem_filterMap] at hfig
    obtain ⟨entry, -, p, -, m, -, hm⟩ := hfig
    exact figureOfMatch_pos _ _ _ _ _ _ _ hm
  · intro years category field m h
    exact figureOfMatch_none text years fileName category field m h
  · intro fig hfig
    simp only [extractFinancialFiguresV2, List.mem_flatMap, List.mem_filterMap] at hfig
    obtain ⟨entry, -, p, -, hm⟩ := hfig
    exact figure2OfPattern_nonneg _ _ _ _ _ _ hm

set_option maxHeartbeats 1000000 in
/-- C3 counterexample: on the text `"revenue: 0"` the 0.9-confidence variant
emits exactly one figure, and its value is 0 — not strictly positive, so the
claim fails for that variant. -/
theorem c3_counterexample :
    (extractFinancialFiguresV2 ("revenue: 0".data) "a.pdf").map (fun f => f.value) = [0] ∧
    ¬ (∀ fig ∈ extractFinancialFiguresV2 ("revenue: 0".data) "a.pdf", 0 < fig.value) := by
  refine ⟨by decide, fun h => ?_⟩
  have hm : fig2Zero ∈ extractFinancialFiguresV2 ("revenue: 0".data) "a.pdf" := by decide
  have hpos := h fig2Zero hm
  simp [fig2Zero] at hpos

/-- Witness for C3 (amended) at concrete inputs: the figure the 0.85 variant
extracts from `"sales: 5 2024"` has positive value, and a comma-only capture
produces no figure. -/
theorem c3_witness :
    0 < figSales5.value ∧
    figureOfMatch ("sales: 5 2024".data) ["2024".data] "a.pdf" "Income Statement" "Revenue"
      (0, [','], 1) = none :=
  ⟨(c3_positive_value_guard ("sales: 5 2024".data) "a.pdf" 2025).1 figSales5 (by decide),
   (c3_positive_value_guard ("sales: 5 2024".data) "a.pdf" 2025).2.1 ["2024".data]
     "Income Statement" "Revenue" (0, [','], 1) (Or.inl (by decide))⟩

/-- C7 (amended): the 0.9 comparator computes
`consistencyScore = matchCount / (matchCount + discrepancyCount) * 100`
with no divide-by-zero guard: when both counts are 0 the score is NaN. -/
theorem c7_score_unguarded :
    ∀ data : List (String × List Figure2),
    (buildAnalysisReport data).summary.consistencyScore =
      jsScore (matchesV2 data).length (discrepanciesV2 data).length ∧
    ((matchesV2 data).length = 0 → (discrepanciesV2 data).length = 0 →
       (buildAnalysisReport data).summary.consistencyScore = JsNum.nan) ∧
    (0 < (matchesV2 data).length + (discrepanciesV2 data).length →
       (buildAnalysisReport data).summary.consistencyScore =
         JsNum.val (((matchesV2 data).length : ℚ) /
           (((matchesV2 data).length : ℚ) + ((discrepanciesV2 data).length : ℚ)) * 100)) := by
  intro data
  refine ⟨rfl, ?_, ?_⟩
  · intro hm hd
    simp [buildAnalysisReport, jsScore, hm, hd]
  · intro h
    simp only [buildAnalysisReport, jsScore]
    rw [if_neg (by omega)]

/-- C7 counterexample: two documents with figures for disjoint
(category, year) pairs produce zero matches and zero discrepancies, and the
reported consistency score is NaN — not 0 and not absent. -/
theorem c7_counterexample :
    (buildAnalysisReport dataC7).summary.matchCount = 0 ∧
    (buildAnalysisReport dataC7).summary.discrepancyCount = 0 ∧
    (buildAnalysisReport dataC7).summary.consistencyScore = JsNum.nan :=
  ⟨by decide, by decide, by decide⟩

/-- Witness for C7 (amended) at the concrete zero-comparison input. -/
theorem c7_witness :
    (buildAnalysisReport dataC7).summary.consistencyScore = JsNum.nan :=
  (c7_score_unguarded dataC7).2.1 (by decide) (by decide)

theorem analyzeDocumentE_valid (file : FileInfo) (u b : Except String String) (now : Nat)
    (h1 : file.size ≠ 0) (h2 : file.size ≤ 50 * 1024 * 1024)
    (h3 : extensionOf file.name = "pdf" ∨ extensionOf file.name = "docx" ∨
      extensionOf file.name = "xlsx") :
    analyzeDocumentE file u b now =
      match resolveText u b file.name with
      | .error msg => .error msg
      | .ok text =>
        if jsTrim text = "" then
          .error ("No readable text content found in " ++ file.name ++
            ". The document may be empty, corrupted, or contain only images.")
        else .ok (extractFinancialFigures text.data file.name now) := by
  simp only [analyzeDocumentE]
  rw [if_neg h1, if_neg (not_lt.mpr h2), if_neg (not_not.mpr h3)]

/-- C5 (amended): both aggregator variants use the URL strategy's text
whenever that strategy does not raise — an empty URL text does *not* trigger
the blob fallback; the blob strategy runs only when the URL strategy raises;
`resolveText` errors exactly when both strategies raise, and (validations
passing) the document is `failed` iff both strategies raise or the resolved
text trims to empty.  The 0.9 variant substitutes sample data instead of
failing when both strategies raise. -/
theorem c5_fallback_semantics :
    ∀ (u b : Except String String) (fname : String) (i : Nat)
      (file : FileInfo) (nowYear : Nat),
    (∀ t, u = .ok t → resolveText u b fname = .ok t ∧ chooseTextV2 u b fname i = t) ∧
    (∀ e t, u = .error e → b = .ok t →
       resolveText u b fname = .ok t ∧ chooseTextV2 u b fname i = t) ∧
    ((∃ msg, resolveText u b fname = .error msg) ↔
       ((∃ e, u = .error e) ∧ (∃ e, b = .error e))) ∧
    (∀ e1 e2, u = .error e1 → b = .error e2 →
       chooseTextV2 u b fname i = sampleTextV2 fname i) ∧
    (file.size ≠ 0 → file.size ≤ 50 * 1024 * 1024 →
      (extensionOf file.name = "pdf" ∨ extensionOf file.name = "docx" ∨
        extensionOf file.name = "xlsx") →
      ((analyzeDocument file u b nowYear).extractionStatus = ExtractionStatus.failed ↔
        (((∃ e, u = .error e) ∧ (∃ e, b = .error e)) ∨
         (∃ t, resolveText u b file.name = .ok t ∧ jsTrim t = "")))) := by
  intro u b fname i file now
  refine ⟨?_, ?_, ?_, ?_, ?_⟩
  · rintro t rfl
    exact ⟨rfl, rfl⟩
  · rintro e t rfl rfl
    exact ⟨rfl, rfl⟩
  · cases u <;> cases b <;> simp [resolveText]
  · rintro e1 e2 rfl rfl
    rfl
  · intro h1 h2 h3
    have hE := analyzeDocumentE_valid file u b now h1 h2 h3
    cases hres : resolveText u b file.name with
    | error msg =>
      rw [hres] at hE
      have hstat : (analyzeDocument file u b now).extractionStatus = .failed := by
        simp [analyzeDocument, hE]
      constructor
      · intro _
        left
        cases u with
        | ok t => simp [resolveText] at hres
        | error e1 =>
          cases b with
          | ok t => simp [resolveText] at hres
          | error e2 => exact ⟨⟨e1, rfl⟩, ⟨e2, rfl⟩⟩
      · intro _
        exact hstat
    | ok t =>
      rw [hres] at hE
      dsimp only at hE
      by_cases htrim : jsTrim t = ""
      · rw [if_pos htrim] at hE
        have hstat : (analyzeDocument file u b now).extractionStatus = .failed := by
          simp [analyzeDocument, hE]
        exact ⟨fun _ => Or.inr ⟨t, rfl, htrim⟩, fun _ => hstat⟩
      · rw [if_neg htrim] at hE
        have hstat : (analyzeDocument file u b now).extractionStatus ≠ .failed := by
          simp only [analyzeDocument, hE]
          split <;> simp
        constructor
        · intro hc
          exact absurd hc hstat
        · rintro (⟨⟨e1, hu⟩, ⟨e2, hb⟩⟩ | ⟨t', ht', htr'⟩)
          · rw [hu, hb] at hres
            simp [resolveText] at hres
          · injection ht' with ht'
            subst ht'
            exact absurd htr' htrim
    
/-- C5 counterexample: with URL extraction succeeding with empty text and
blob extraction available with usable text, the 0.85 aggregator fails the
document without attempting the blob strategy; the same blob text reached via
a *raising* URL strategy yields `success`. -/
theorem c5_counterexample :
    (analyzeDocument ⟨"a.pdf", 100⟩ (Except.ok "")
      (Except.ok "sales: 5 2024") 2024).extractionStatus = ExtractionStatus.failed ∧
    (analyzeDocument ⟨"a.pdf", 100⟩ (Except.error "boom")
      (Except.ok "sales: 5 2024") 2024).extractionStatus = ExtractionStatus.success :=
  ⟨by decide, by decide⟩

/-- Witness for C5 (amended) at concrete outcomes: fallback on a raising URL
strategy, sample-data substitution in the 0.9 variant, and `failed` when both
strategies raise. -/
theorem c5_witness :
    resolveText (Except.error "e1") (Except.ok "sales: 5 2024") "a.pdf" =
      Except.ok "sales: 5 2024" ∧
    chooseTextV2 (Except.error "e1") (Except.error "e2") "a.pdf" 0 = sampleTextV2 "a.pdf" 0 ∧
    (analyzeDocument ⟨"a.pdf", 100⟩ (Except.error "e1")
      (Except.error "e2") 2024).extractionStatus = ExtractionStatus.failed := by
  refine ⟨?_, ?_, ?_⟩
  · exact ((c5_fallback_semantics (Except.error "e1") (Except.ok "sales: 5 2024") "a.pdf" 0
      ⟨"a.pdf", 100⟩ 2024).2.1 "e1" "sales: 5 2024" rfl rfl).1
  · exact (c5_fallback_semantics (Except.error "e1") (Except.error "e2") "a.pdf" 0
      ⟨"a.pdf", 100⟩ 2024).2.2.2.1 "e1" "e2" rfl rfl
  · exact ((c5_fallback_semantics (Except.error "e1") (Except.error "e2") "a.pdf" 0
      ⟨"a.pdf", 100⟩ 2024).2.2.2.2 (by decide) (by decide) (by decide)).mpr
      (Or.inl ⟨⟨"e1", rfl⟩, ⟨"e2", rfl⟩⟩)

/-- C8: for every (category, year) pair with at least two present values not
all numerically identical, the 0.9 comparator produces a discrepancy record
with `variance = max - min`, per-document value and location, and a
suggestion string naming the value range (rendered via `ratStr`). -/
theorem c8_discrepancy_variance :
    ∀ (data : List (String × List Figure2)) (cat : String) (year : List Char),
    2 ≤ (presentFor data cat year).length →
    ¬ (dedupFirst ((presentFor data cat year).map (fun p => p.2.value))).length = 1 →
    ∃ d ∈ (buildAnalysisReport data).discrepancies,
      d.category = cat ∧ d.year = year ∧
      d.values = (presentFor data cat year).map
        (fun p => ⟨p.1, p.2.value, p.2.location⟩) ∧
      d.variance = listMax ((presentFor data cat year).map (fun p => p.2.value)) -
        listMin ((presentFor data cat year).map (fun p => p.2.value)) ∧
      d.suggestion = mkSuggestion cat year
        ((presentFor data cat year).map (fun p => p.2.value)) := by
  intro data cat year hlen hne
  have hne2 : presentFor data cat year ≠ [] := by
    intro h
    rw [h] at hlen
    simp at hlen
  obtain ⟨p, hp⟩ := List.exists_mem_of_ne_nil _ hne2
  simp only [presentFor, List.mem_filterMap] at hp
  obtain ⟨e, he, hfind⟩ := hp
  cases hf2 : findFig2 e.2 cat year with
  | none =>
    rw [hf2] at hfind
    cases hfind
  | some f =>
    have hfmem : f ∈ e.2 := List.mem_of_find?_eq_some hf2
    have hfpred : f.category = cat ∧ f.year = year := by
      have hp := List.find?_some hf2
      simpa [Bool.and_eq_true, beq_iff_eq] using hp
    have hcat : cat ∈ allCats2 data := by
      simp only [allCats2]
      rw [mem_dedupFirst]
      simp only [List.mem_flatMap, List.mem_map]
      exact ⟨e, he, f, hfmem, hfpred.1⟩
    have hyear : year ∈ allYears2 data := by
      simp only [allYears2]
      rw [mem_dedupFirst]
      simp only [List.mem_flatMap, List.mem_map]
      exact ⟨e, he, f, hfmem, hfpred.2⟩
    have hpair : (cat, year) ∈ pairsV2 data := by
      simp only [pairsV2, List.mem_flatMap, List.mem_map]
      exact ⟨cat, hcat, year, hyear, rfl⟩
    refine ⟨{ category := cat, year := year,
              values := (presentFor data cat year).map
                (fun p => ⟨p.1, p.2.value, p.2.location⟩),
              status := "discrepancy",
              variance := listMax ((presentFor data cat year).map (fun p => p.2.value)) -
                listMin ((presentFor data cat year).map (fun p => p.2.value)),
              suggestion := mkSuggestion cat year
                ((presentFor data cat year).map (fun p => p.2.value)) },
           ?_, rfl, rfl, rfl, rfl, rfl⟩
    have hdisc : (buildAnalysisReport data).discrepancies = discrepanciesV2 data := rfl
    rw [hdisc]
    simp only [discrepanciesV2, List.mem_filterMap]
    refine ⟨(cat, year), hpair, ?_⟩
    dsimp only
    rw [if_pos ⟨hlen, hne⟩]

/-- Witness for C8 at the claim's own example: two documents reporting
1,000,000 and 1,200,000 for Revenue 2024 yield exactly one discrepancy, with
variance 200,000. -/
theorem c8_witness :
    (buildAnalysisReport dataW8).discrepancies.length = 1 ∧
    listMax ((presentFor dataW8 "Revenue" ("2024".data)).map (fun p => p.2.value)) -
      listMin ((presentFor dataW8 "Revenue" ("2024".data)).map (fun p => p.2.value))
      = 200000 ∧
    ∃ d ∈ (buildAnalysisReport dataW8).discrepancies,
      d.category = "Revenue" ∧ d.year = "2024".data ∧
      d.values = (presentFor dataW8 "Revenue" ("2024".data)).map
        (fun p => ⟨p.1, p.2.value, p.2.location⟩) ∧
      d.variance = listMax ((presentFor dataW8 "Revenue" ("2024".data)).map
          (fun p => p.2.value)) -
        listMin ((presentFor dataW8 "Revenue" ("2024".data)).map (fun p => p.2.value)) ∧
      d.suggestion = mkSuggestion "Revenue" ("2024".data)
        ((presentFor dataW8 "Revenue" ("2024".data)).map (fun p => p.2.value)) := by
  refine ⟨by decide, ?_,
    c8_discrepancy_variance dataW8 "Revenue" ("2024".data) (by decide) (by decide)⟩
  have hmax : listMax ((presentFor dataW8 "Revenue" ("2024".data)).map
      (fun p => p.2.value)) = 1200000 := by decide
  have hmin : listMin ((presentFor dataW8 "Revenue" ("2024".data)).map
      (fun p => p.2.value)) = 1000000 := by decide
  rw [hmax, hmin]
  norm_num
